import Mathlib

/-!
# Verification of the UWGeodynamics time-stepping / rheology-composition engine

Shallow embedding of `src/UWGeodynamics/_model.py` (Model._viscosityFn, Model.run_for,
Model._update, Model._update_stress_history) and `src/UWGeodynamics/_density.py`
(LinearDensity) over `ℚ`.

Conventions:
* Physical quantities are rationals; the unit/scaling layer (`scaling.py`, out of
  scope per the spec) is the identity `nd`.
* Underworld `fn.branching.map` functions are evaluated at one particle: the
  dispatch on the particle's `materialField` value becomes a lookup of the
  particle's material, and each handler's `muEff`/field evaluation at that particle
  becomes a rational number.
* Python exceptions become `Except PyError`; Python truthiness of optional numeric
  attributes (`if not material.minViscosity:` ...) is `pyTruthy`.
-/

namespace UWG

/-- Python exception kinds raised by the embedded code paths. -/
inductive PyError where
  | valueError (msg : String)
  | keyError
  | indexError
  | runtimeError (msg : String)
  | typeError
deriving Repr, DecidableEq

instance {ε α : Type} [DecidableEq ε] [DecidableEq α] :
    DecidableEq (Except ε α) := fun a b =>
  match a, b with
  | .ok x, .ok y => decidable_of_iff (x = y) (by simp)
  | .error x, .error y => decidable_of_iff (x = y) (by simp)
  | .ok _, .error _ => isFalse (by simp)
  | .error _, .ok _ => isFalse (by simp)

/-- `nonDimensionalize` from the scaling layer: out of scope (§6 of the spec),
modelled as the identity on numeric values. -/
def nd (x : ℚ) : ℚ := x

/-- Python truthiness of an optional numeric attribute: `None` and `0` are falsy. -/
def pyTruthy (x : Option ℚ) : Bool :=
  match x with
  | none => false
  | some v => decide (v ≠ 0)

/-- Modelled from the spec: plasticity handler (from `_rheology.py`, which is not in
`src/`). `yieldStress` is the output of `_get_yieldStress2D`/`_get_yieldStress3D`
at the particle of interest (handler-specific yield law). -/
structure Plasticity where
  yieldStress : ℚ

/-- Modelled from the spec: elasticity handler (from `_rheology.py`, which is not in
`src/`). `muEffOf` is the handler-specific visco-elastic effective-viscosity law,
as a function of the viscous-branch viscosity (§4.2 step 2 of the spec). -/
structure Elasticity where
  shear_modulus : ℚ
  observation_time : ℚ
  muEffOf : ℚ → ℚ

/-- Modelled from the spec: `FrictionBoundaries` (from `_frictional_boundary.py`, not
in `src/`). `mask` is the boundary-mask value at the particle; `yieldStressOf` the
yield stress recomputed from a copy of the plasticity handler whose friction
coefficients are overridden with the boundary's value (lines 1223-1243). -/
structure FrictionBoundaries where
  mask : ℚ
  yieldStressOf : Plasticity → ℚ

/-- Modelled from the spec: the `Material` descriptor (from `_material.py`, not in
`src/`), restricted to the attributes the embedded code paths read. Handler-valued
attributes are `Option`s (`None` absent); the viscous handler is represented by its
`muEff` value at the particle of interest. -/
structure Material where
  index : ℕ
  name : String := "unknown"
  viscosity : Option ℚ := none
  elasticity : Option Elasticity := none
  plasticity : Option Plasticity := none
  melt : Bool := false
  viscosityChange : ℚ := 1
  viscosityChangeX1 : ℚ := 0
  viscosityChangeX2 : ℚ := 1
  stressLimiter : Option (ℚ → ℚ) := none
  minViscosity : Option ℚ := none
  maxViscosity : Option ℚ := none
  healingRate : ℚ := 0

/-- Modelled from the spec: `ViscosityLimiter` (from `_rheology.py`, not in `src/`):
"Clamp to [minViscosity, maxViscosity]" (§4.2 step 7). -/
structure ViscosityLimiter where
  minViscosity : ℚ
  maxViscosity : ℚ

/-- Modelled from the spec: the clamp of a viscosity value to
`[minViscosity, maxViscosity]`. -/
def ViscosityLimiter.apply (l : ViscosityLimiter) (v : ℚ) : ℚ :=
  min l.maxViscosity (max l.minViscosity v)

/-- The state of a `Model` needed to evaluate the composed constitutive functions at
one particle. Field values (`strainRateInv`, `meltFraction`, ...) are the
evaluations of the corresponding Underworld fields at that particle. -/
structure ModelState where
  materials : List Material
  minViscosity : ℚ := 0
  maxViscosity : ℚ := 0
  stressLimiter : Option (ℚ → ℚ) := none
  frictionalBCs : Option FrictionBoundaries := none
  strainRateInv : ℚ := 0
  meltFraction : ℚ := 0
  elasticSRInv : ℚ := 0
  defaultStrainRate : ℚ := 0
  solutionExists : Bool := true

/-- The fixed strain-rate floor `nd(1e-20 / u.second)` of the plastic branch
(`_model.py` line 1217): a hard numerical guard, not the user-configurable
`defaultStrainRate`. -/
def srFloor : ℚ := 1 / 100000000000000000000

/-- `ViscosityMap` entry after the viscous and elasticity passes
(`_viscosityFn`, lines 1143-1164): the viscous handler's `muEff` when declared,
replaced by the visco-elastic `muEff` when elasticity is declared too. (The
elastic-without-viscous error case is handled by `firstElasticityOffender`.) -/
def elasticEntry (m : Material) : Option ℚ :=
  match m.viscosity with
  | none => none
  | some v =>
    match m.elasticity with
    | none => some v
    | some e => some (e.muEffOf v)

/-- First material failing the elasticity-requires-viscosity check
(`_viscosityFn`, lines 1153-1161), in list order. -/
def firstElasticityOffender (mats : List Material) : Option Material :=
  mats.find? (fun m => m.elasticity.isSome && m.viscosity.isNone)

/-- First material hitting the `ViscosityMap[material.index] *= ...` `KeyError` in
the melt pass (lines 1166-1177): melt declared, but no `ViscosityMap` entry (only
materials declaring viscosity have one once the elasticity pass succeeded). -/
def firstMeltOffender (mats : List Material) : Option Material :=
  mats.find? (fun m => m.melt && m.viscosity.isNone)

/-- The three-segment melt-weakening multiplier
(`_viscosityFn`, lines 1166-1177) as a function of the particle's melt fraction. -/
def meltMultiplier (st : ModelState) (m : Material) : ℚ :=
  if st.meltFraction < m.viscosityChangeX1 then 1
  else if st.meltFraction > m.viscosityChangeX2 then m.viscosityChange
  else 1 + (m.viscosityChange - 1)
        / (m.viscosityChangeX2 - m.viscosityChangeX1)
        * (st.meltFraction - m.viscosityChangeX1)

/-- `ViscosityMap` entry after the viscous, elasticity and melt passes
(lines 1143-1177): the melt multiplier is applied multiplicatively
(`ViscosityMap[material.index] *= ...`) to the already-composed entry. -/
def viscosityMapEntry (st : ModelState) (m : Material) : Option ℚ :=
  (elasticEntry m).map (fun v => if m.melt then v * meltMultiplier st m else v)

/-- Yield stress after the stress-limiter selection (lines 1195-1200):
material-specific limiter if declared, else the Model-wide one, else none.
The `StressLimiter` handler itself lives in `_rheology.py` (not in `src/`) and is
kept abstract as a function. -/
def appliedYieldStress (st : ModelState) (m : Material) (p : Plasticity) : ℚ :=
  match m.stressLimiter with
  | some f => f p.yieldStress
  | none =>
    match st.stressLimiter with
    | some f => f p.yieldStress
    | none => p.yieldStress

/-- Strain-rate invariant driving the plastic branch: the second invariant of
`D_eff` when the material is elastic (lines 1202-1212), else the plain strain-rate
second invariant (line 1214). -/
def plasticSRInv (st : ModelState) (m : Material) : ℚ :=
  if m.elasticity.isSome then st.elasticSRInv else st.strainRateInv

/-- The guarded divisor `eij` (lines 1216-1218): the invariant, floored at
`srFloor`. -/
def guardedSRInv (x : ℚ) : ℚ :=
  if x < srFloor then srFloor else x

/-- `PlasticityMap` entry (lines 1180-1252), including the frictional-boundary
mask-selected blend (lines 1223-1252). -/
def plasticityMapEntry (st : ModelState) (m : Material) : Option ℚ :=
  match m.plasticity with
  | none => none
  | some p =>
    let base := 1 / 2 * appliedYieldStress st m p / guardedSRInv (plasticSRInv st m)
    match st.frictionalBCs with
    | none => some base
    | some fb =>
      if fb.mask > 0 then
        some (1 / 2 * fb.yieldStressOf p /
          (if st.strainRateInv ≤ srFloor then srFloor else st.strainRateInv))
      else some base

/-- The per-material output of the combine and limiter steps of `_viscosityFn`. -/
structure RheologyEntry where
  eff : ℚ
  preClamp : ℚ
  bg : ℚ
  isPlastic : ℚ

/-- Material-specific minimum-viscosity limit with Model-wide fallback
(lines 1276-1279); `if not material.minViscosity:` follows Python truthiness. -/
def effMinViscosity (st : ModelState) (m : Material) : ℚ :=
  if pyTruthy m.minViscosity then m.minViscosity.getD st.minViscosity
  else st.minViscosity

/-- Material-specific maximum-viscosity limit with Model-wide fallback
(lines 1281-1284). -/
def effMaxViscosity (st : ModelState) (m : Material) : ℚ :=
  if pyTruthy m.maxViscosity then m.maxViscosity.getD st.maxViscosity
  else st.maxViscosity

/-- `EffViscosityMap`/`BGViscosityMap`/`PlasticMap` entries for one material:
combine step (lines 1254-1271) followed by the viscosity limiter
(lines 1273-1292). `none` when the material declares neither viscosity nor
plasticity (no map entry). -/
def materialRheology (st : ModelState) (m : Material) : Option RheologyEntry :=
  let limiter : ViscosityLimiter :=
    ⟨effMinViscosity st m, effMaxViscosity st m⟩
  match viscosityMapEntry st m, plasticityMapEntry st m with
  | some v, some p =>
    some ⟨limiter.apply (min p v), min p v, v, 0⟩
  | some v, none =>
    some ⟨limiter.apply v, v, v, 0⟩
  | none, some p =>
    some ⟨limiter.apply p, p, p, 1⟩
  | none, none => none

/-- `Model._viscosityFn` (lines 1136-1313) evaluated at one particle whose
`materialField` value is `idx`: the composed effective viscosity, or the exception
the composition raises. `fn.branching.map` dispatch is modelled by looking up the
particle's material by index (`none` when the key is unmapped). -/
def viscosityFn (st : ModelState) (idx : ℕ) : Except PyError (Option ℚ) :=
  match firstElasticityOffender st.materials with
  | some m => .error (.valueError ("Viscosity undefined for " ++ m.name))
  | none =>
    match firstMeltOffender st.materials with
    | some _ => .error .keyError
    | none =>
      .ok ((st.materials.find? (fun m => m.index == idx)).bind
        (fun m => (materialRheology st m).map RheologyEntry.eff))

/-- The yielding flag of `yieldConditions` (lines 1300-1304) at a particle with
rheology entry `e`: 1.0 when the effective viscosity is below the background
viscosity, 1.0 when the material is plastic-only (`isPlastic > 0.5`), else 0.0. -/
def yieldFlag (e : RheologyEntry) : ℚ :=
  if e.eff < e.bg then 1
  else if e.isPlastic > 1 / 2 then 1
  else 0

/-- `Model._isYielding` at a particle (lines 1306-1311): the flag times the
strain-rate second invariant once a solution exists, the constant zero before the
very first solve. -/
def isYielding (st : ModelState) (e : RheologyEntry) : ℚ :=
  if st.solutionExists then yieldFlag e * st.strainRateInv else 0

/-- `Model._yieldStressFn` (lines 1367-1372) at a particle with effective viscosity
`eff`: unlike the plastic branch's fixed `srFloor`, this uses the user-configurable
`defaultStrainRate`. -/
def yieldStressFn (st : ModelState) (eff : ℚ) : ℚ :=
  2 * eff * max st.strainRateInv (nd st.defaultStrainRate)

/-- Whether the plastic-strain healing block of `Model._update` executes
(line 1751): `any([material.healingRate for material in self.materials])`, with
Python truthiness on the rates. -/
def healingActive (st : ModelState) : Bool :=
  st.materials.any (fun m => decide (m.healingRate ≠ 0))

/-- The plastic-strain part of `Model._update` (lines 1750-1764) at one particle
belonging to material `m`: healing decrement and floor at zero (executed only when
some material has a truthy healing rate), then the yielding accumulation
increment `dt * _isYielding` (here `yld` is the particle's `_isYielding` value). -/
def updatePlasticStrain (st : ModelState) (m : Material) (dt p yld : ℚ) : ℚ :=
  let afterHeal :=
    if healingActive st then
      let p1 := p - dt * nd m.healingRate
      if p1 < 0 then 0 else p1
    else p
  afterHeal + dt * yld

/-- The elastic observation times collected by `_update_stress_history`
(lines 1357-1360) and the elasticity cap of `run_for` (lines 1656-1659). -/
def elasticObsTimes (mats : List Material) : List ℚ :=
  mats.filterMap (fun m => m.elasticity.map (fun e => nd e.observation_time))

/-- `np.array(dt_e).min()`: the minimum elastic observation time; `none` when no
material declares elasticity (`np.min` of an empty array raises). -/
def minElasticObsTime (mats : List Material) : Option ℚ :=
  match elasticObsTimes mats with
  | [] => none
  | x :: xs => some (xs.foldl min x)

/-- `Model._update_stress_history` (lines 1355-1365) at one particle and one stress
component: `prev` the `previousStressField` value, `cur` the freshly composed
`_stressFn` evaluated at the particle. -/
def updateStressHistory (mats : List Material) (dt prev cur : ℚ) : Option ℚ :=
  (minElasticObsTime mats).map (fun dte =>
    let phi := dt / dte
    prev * (1 - phi) + phi * cur)

/-- The arguments and collaborator outputs `run_for` consumes when selecting the
timestep of one iteration (lines 1590-1665). `advectorMaxDt` is
`swarm_advector.get_max_dt()`, `supgMaxDt` is `_advdiffSystem.get_max_dt()`,
`checkpointIntervalTime` is `checkpoint_interval` when it is a time-dimensioned
quantity, `durationArg`/`userDtArg`/`checkpointTimesArg` the `duration`/`dt`/
`checkpoint_times` arguments, and `time0` is `nd(self.time)` on entry. -/
structure RunConfig where
  advectorMaxDt : ℚ
  cfl : ℚ := 1 / 2
  hasTemperature : Bool := false
  advDiffMethod : String := "SUPG"
  supgMaxDt : ℚ := 0
  checkpointIntervalTime : Option ℚ := none
  nextCheckpoint : ℚ := 0
  durationArg : Option ℚ := none
  time0 : ℚ := 0
  userDtArg : Option ℚ := none
  checkpointTimesArg : Option (List ℚ) := none
  materials : List Material := []
  time : ℚ := 0

/-- The local `duration` variable of `run_for` (lines 1593-1598): entry time plus
the requested duration when one was passed, the entry time itself otherwise. -/
def runDuration (cfg : RunConfig) : ℚ :=
  match cfg.durationArg with
  | some d => cfg.time0 + nd d
  | none => cfg.time0

/-- Timestep selection of one `run_for` iteration (lines 1632-1665), phrased as the
value of `self._dt` after all bounds were applied. Guards follow the source's
Python truthiness (`if duration:`, `if user_dt:`, `if dte and ...`). The
`checkpoint_times` branch takes `tcheck[0]` of the sorted non-negative remaining
gaps (`checkpoint_times - time` is modelled as the elementwise broadcast), raising
`IndexError` when every listed time lies in the past. -/
def selectDt (cfg : RunConfig) : Except PyError ℚ :=
  let dt0 := 2 * cfg.cfl * cfg.advectorMaxDt
  let dt1 :=
    if cfg.hasTemperature && (cfg.advDiffMethod == "SUPG") then
      min dt0 (2 * cfg.cfl * cfg.supgMaxDt)
    else dt0
  let dt2 :=
    match cfg.checkpointIntervalTime with
    | some _ => min dt1 (cfg.nextCheckpoint - cfg.time)
    | none => dt1
  let dt3 :=
    if runDuration cfg ≠ 0 then min dt2 (runDuration cfg - cfg.time) else dt2
  let dt4 :=
    match cfg.userDtArg with
    | some udt => if udt ≠ 0 then min dt3 (nd udt) else dt3
    | none => dt3
  let dt5 : Except PyError ℚ :=
    match cfg.checkpointTimesArg with
    | some l =>
      if l ≠ [] then
        match (l.map (fun v => nd v - cfg.time)).filter (fun v => decide (0 ≤ v)) with
        | [] => .error .indexError
        | x :: xs => .ok (min dt4 (xs.foldl min x))
      else .ok dt4
    | none => .ok dt4
  dt5.map (fun d =>
    match minElasticObsTime cfg.materials with
    | none => d
    | some dte => if dte ≠ 0 ∧ d > dte / 3 then dte / 3 else d)

/-- Checkpoint persistence events of the stepping loop: the argument is the
`checkpointID` passed to `checkpoint_fields` / `checkpoint_tracers` /
`checkpoint_swarms`. -/
inductive CkptEvent where
  | fields (id : ℕ)
  | tracers (id : ℕ)
  | swarms (id : ℕ)
deriving Repr, DecidableEq

/-- The scheduled-checkpoint target: the local `next_checkpoint` of `run_for`, a
time when `checkpoint_interval` is a time-dimensioned quantity (lines 1613-1615),
a step count when it is a plain number (lines 1616-1617). -/
abbrev CkptTarget := ℚ ⊕ ℕ

/-- The clock state of the stepping loop mutated by one iteration
(lines 1671-1692). -/
structure LoopState where
  time : ℚ
  stepDone : ℕ
  checkpointID : ℕ
  nextCkpt : Option CkptTarget

/-- The checkpoint-trigger test of `run_for` (lines 1676-1678), evaluated after the
clock has advanced: with a time-scheduled target `time == next_checkpoint` (the
`stepDone == next_checkpoint` disjunct compares the step count against the same
float); with a step-scheduled target `stepDone == next_checkpoint`. -/
def ckptTrigger (time' : ℚ) (stepDone' : ℕ) : Option CkptTarget → Bool
  | none => false
  | some (Sum.inl tc) => decide (time' = tc) || decide ((stepDone' : ℚ) = tc)
  | some (Sum.inr sc) => decide (stepDone' = sc)

/-- Clock advance and checkpointing decisions of one `run_for` iteration
(lines 1671-1692): advance `time`/`stepDone`; on trigger increment `checkpointID`,
persist fields and tracers and push `next_checkpoint` forward by the interval;
then, in every iteration, persist the swarms iff
`checkpointID % restart_checkpoint == 0`. Returns the new state and the list of
persistence events of the iteration. -/
def iterCheckpoint (interval : Option CkptTarget) (restartCkpt : ℕ) (dt : ℚ)
    (s : LoopState) : LoopState × List CkptEvent :=
  let time' := s.time + dt
  let stepDone' := s.stepDone + 1
  if ckptTrigger time' stepDone' s.nextCkpt then
    let id' := s.checkpointID + 1
    let nc' : Option CkptTarget :=
      match s.nextCkpt, interval with
      | some (Sum.inl tc), some (Sum.inl i) => some (Sum.inl (tc + nd i))
      | some (Sum.inr sc), some (Sum.inr i) => some (Sum.inr (sc + i))
      | nc, _ => nc
    let evs := [CkptEvent.fields id', CkptEvent.tracers id']
      ++ (if id' % restartCkpt = 0 then [CkptEvent.swarms id'] else [])
    (⟨time', stepDone', id', nc'⟩, evs)
  else
    (⟨time', stepDone', s.checkpointID, s.nextCkpt⟩,
      if s.checkpointID % restartCkpt = 0 then [CkptEvent.swarms s.checkpointID]
      else [])

/-- `LinearDensity` from `_density.py` (lines 30-53): `alpha`, `beta`, `Tref`,
`Pref` are the non-dimensionalized constructor parameters `_alpha`, `_beta`,
`_Tref`, `_Pref`; the two fields are the evaluations of `temperatureField` and
`pressureField` at the point of interest, `none` when the field is unset. -/
structure LinearDensity where
  reference_density : ℚ
  thermalExpansivity : ℚ := 3 / 10 ^ 5
  reference_temperature : ℚ := 27315 / 100
  beta' : ℚ := 0
  reference_pressure : ℚ := 0
  temperatureField : Option ℚ := none
  pressureField : Option ℚ := none

/-- `_alpha = nd(thermalExpansivity)` (line 50). -/
def LinearDensity.alpha (d : LinearDensity) : ℚ := nd d.thermalExpansivity

/-- `_beta = nd(beta)` (line 51). -/
def LinearDensity.beta (d : LinearDensity) : ℚ := nd d.beta'

/-- `_Tref = nd(reference_temperature)` (line 52). -/
def LinearDensity.Tref (d : LinearDensity) : ℚ := nd d.reference_temperature

/-- `_Pref = nd(reference_pressure)` (line 53). -/
def LinearDensity.Pref (d : LinearDensity) : ℚ := nd d.reference_pressure

/-- `LinearDensity.effective_density` (`_density.py`, lines 65-81): raises
`RuntimeError` when `temperatureField` is unset, then when `pressureField` is
unset; otherwise returns
`rho0 * (1 + beta * (P - Pref) - alpha * (T - Tref))`. -/
def LinearDensity.effective_density (d : LinearDensity) : Except PyError ℚ :=
  match d.temperatureField with
  | none => .error (.runtimeError "No temperatureField found!")
  | some T =>
    match d.pressureField with
    | none => .error (.runtimeError "No pressureField found!")
    | some P =>
      .ok (nd d.reference_density *
        (1 + d.beta * (P - d.Pref) - d.alpha * (T - d.Tref)))

/-! Helper lemmas (shared across the claim theorems). -/

/-- The guarded divisor is the maximum of the invariant and the fixed floor. -/
theorem guardedSRInv_eq_max (x : ℚ) : guardedSRInv x = max x srFloor := by
  unfold guardedSRInv
  rcases lt_or_ge x srFloor with h | h
  · rw [if_pos h, max_eq_right h.le]
  · rw [if_neg (not_lt.mpr h), max_eq_left h]

/-- A material has a `ViscosityMap` entry iff it declares viscosity. -/
theorem viscosityMapEntry_eq_none_iff (st : ModelState) (m : Material) :
    viscosityMapEntry st m = none ↔ m.viscosity = none := by
  unfold viscosityMapEntry elasticEntry
  rcases m.viscosity with _ | v
  · simp
  · rcases m.elasticity with _ | e <;> simp

/-- A material has a `PlasticityMap` entry iff it declares plasticity. -/
theorem plasticityMapEntry_eq_none_iff (st : ModelState) (m : Material) :
    plasticityMapEntry st m = none ↔ m.plasticity = none := by
  unfold plasticityMapEntry
  rcases m.plasticity with _ | p
  · simp
  · rcases st.frictionalBCs with _ | fb
    · simp
    · dsimp only
      split_ifs <;> simp

/-- `foldl min` is a lower bound of its starting value. -/
theorem foldl_min_le_init (xs : List ℚ) (x : ℚ) : xs.foldl min x ≤ x := by
  induction xs generalizing x with
  | nil => exact le_refl x
  | cons y ys ih =>
    exact le_trans (ih (min x y)) (min_le_left x y)

/-- `foldl min` is a lower bound of every list element. -/
theorem foldl_min_le_mem (xs : List ℚ) (x y : ℚ) : y ∈ xs → xs.foldl min x ≤ y := by
  induction xs generalizing x with
  | nil => intro hy; cases hy
  | cons z zs ih =>
    intro hy
    rw [List.foldl_cons]
    rcases List.mem_cons.mp hy with h | h
    · subst h
      exact le_trans (foldl_min_le_init zs (min x y)) (min_le_right x y)
    · exact ih (min x z) h

/-- `foldl min` attains its value on the start or a list element. -/
theorem foldl_min_attained (xs : List ℚ) (x : ℚ) :
    xs.foldl min x = x ∨ xs.foldl min x ∈ xs := by
  induction xs generalizing x with
  | nil => exact Or.inl rfl
  | cons z zs ih =>
    rw [List.foldl_cons]
    rcases ih (min x z) with h | h
    · rcases min_cases x z with ⟨he, _⟩ | ⟨he, _⟩
      · exact Or.inl (h.trans he)
      · exact Or.inr (by rw [h, he]; exact List.mem_cons_self z zs)
    · exact Or.inr (List.mem_cons_of_mem z h)

/-! Claim C3: the plastic-branch yield viscosity. -/

/-- C3: for every material declaring plasticity (with no frictional-boundary layer
configured), the plastic-branch yield viscosity equals
`0.5 * yieldStress / max(strainRateInvariant, srFloor)` with the fixed guard
`srFloor = 1e-20`; the branch is independent of the user-configurable
`defaultStrainRate` (which `_yieldStressFn` uses instead). -/
theorem plastic_branch_yield_viscosity (st : ModelState) (m : Material)
    (p : Plasticity) (hp : m.plasticity = some p) (hf : st.frictionalBCs = none) :
    plasticityMapEntry st m =
      some (1 / 2 * appliedYieldStress st m p / max (plasticSRInv st m) srFloor)
    ∧ srFloor = 1 / 10 ^ 20
    ∧ srFloor ≠ 0
    ∧ (∀ d, plasticityMapEntry { st with defaultStrainRate := d } m =
        plasticityMapEntry st m)
    ∧ (∀ d eff, yieldStressFn { st with defaultStrainRate := d } eff =
        2 * eff * max st.strainRateInv (nd d)) := by
  refine ⟨?_, by norm_num [srFloor], by norm_num [srFloor], fun d => rfl,
    fun d eff => rfl⟩
  unfold plasticityMapEntry
  rw [hp, hf]
  simp only [guardedSRInv_eq_max]

/-- The spec scenario's plastic-only material: index 1, yield stress `1e7`, no
viscous branch. -/
def scenarioMaterial : Material :=
  { index := 1, plasticity := some ⟨10000000⟩ }

/-- The spec scenario's model state: background material (index 0, viscosity
`1e21`), strain-rate invariant `1e-14`, wide Model-wide viscosity limits. -/
def scenarioState : ModelState :=
  { materials :=
      [{ index := 0, viscosity := some 1000000000000000000000 }, scenarioMaterial],
    minViscosity := 1000000000000000000,
    maxViscosity := 10000000000000000000000000,
    strainRateInv := 1 / 100000000000000 }

/-- C3 witness: at the spec scenario the plastic branch evaluates to
`0.5 * 1e7 / 1e-14 = 5e20`, which is also the final effective viscosity. -/
theorem plastic_branch_yield_viscosity_scenario :
    plasticityMapEntry scenarioState scenarioMaterial =
      some (1 / 2 *
        appliedYieldStress scenarioState scenarioMaterial ⟨10000000⟩ /
        max (plasticSRInv scenarioState scenarioMaterial) srFloor)
    ∧ plasticityMapEntry scenarioState scenarioMaterial =
        some 500000000000000000000
    ∧ (materialRheology scenarioState scenarioMaterial).map RheologyEntry.eff =
        some 500000000000000000000 :=
  ⟨(plastic_branch_yield_viscosity scenarioState scenarioMaterial ⟨10000000⟩ rfl
      rfl).1,
    by with_unfolding_all rfl, by with_unfolding_all rfl⟩

/-! Claim C2: timestep bounds in `run_for`. -/

/-- A fresh run: no duration requested, entry clock time `0`, advective CFL bound
`2 * 0.5 * 1 = 1`. -/
def freshRunConfig : RunConfig :=
  { advectorMaxDt := 1, time0 := 0, time := 0 }

/-- A resumed run: no duration requested but the entry clock time is `5` (for
example a second `run_for(nstep=...)` call after the model already advanced). -/
def resumedRunConfig : RunConfig :=
  { advectorMaxDt := 1, time0 := 5, time := 5 }

/-- C2 (code bug): the run-end bound is not excluded when no duration was
requested. The local `duration` of `run_for` defaults to the entry time
(line 1598), and the guard `if duration:` (line 1645) is Python truthiness, so on
a resumed run (nonzero entry clock) the selector applies the bound
`duration - time = 0` and collapses `dt` to `0`, while the identical fresh run
keeps the advective bound `1`: an inactive bound changes the result. -/
theorem selectDt_inactive_duration_bound_leaks :
    freshRunConfig.durationArg = none
    ∧ resumedRunConfig.durationArg = none
    ∧ selectDt freshRunConfig = .ok 1
    ∧ selectDt resumedRunConfig = .ok 0 := by
  refine ⟨rfl, rfl, ?_, ?_⟩ <;> with_unfolding_all rfl

/-! Claim C1: minimum of the branches, then clamp. -/

/-- C1: for a material declaring both viscosity and plasticity, the combined
effective viscosity before clamping is the pointwise minimum of the plastic- and
viscous-branch viscosities (hence at most each), and the returned value is that
minimum clamped, as the last step, to `[minViscosity, maxViscosity]` — the
material-specific limits when declared, else the Model-wide defaults — and lies
within them. -/
theorem effective_viscosity_min_then_clamp (st : ModelState) (m : Material)
    (hv : m.viscosity.isSome) (hpl : m.plasticity.isSome)
    (hb : effMinViscosity st m ≤ effMaxViscosity st m) :
    ∃ v pl e, viscosityMapEntry st m = some v
      ∧ plasticityMapEntry st m = some pl
      ∧ materialRheology st m = some e
      ∧ e.preClamp = min pl v ∧ e.preClamp ≤ v ∧ e.preClamp ≤ pl
      ∧ e.eff = ViscosityLimiter.apply
          ⟨effMinViscosity st m, effMaxViscosity st m⟩ e.preClamp
      ∧ effMinViscosity st m ≤ e.eff ∧ e.eff ≤ effMaxViscosity st m := by
  have hvm : ∃ v, viscosityMapEntry st m = some v := by
    rw [← Option.isSome_iff_exists, Option.isSome_iff_ne_none]
    intro hnone
    rw [viscosityMapEntry_eq_none_iff] at hnone
    rw [hnone] at hv
    exact Bool.noConfusion hv
  have hpm : ∃ pl, plasticityMapEntry st m = some pl := by
    rw [← Option.isSome_iff_exists, Option.isSome_iff_ne_none]
    intro hnone
    rw [plasticityMapEntry_eq_none_iff] at hnone
    rw [hnone] at hpl
    exact Bool.noConfusion hpl
  obtain ⟨v, hv'⟩ := hvm
  obtain ⟨pl, hp'⟩ := hpm
  refine ⟨v, pl,
    ⟨ViscosityLimiter.apply ⟨effMinViscosity st m, effMaxViscosity st m⟩
        (min pl v), min pl v, v, 0⟩,
    hv', hp', ?_, rfl, min_le_right pl v, min_le_left pl v, rfl, ?_, ?_⟩
  · unfold materialRheology
    rw [hv', hp']
  · exact le_min hb (le_max_left _ _)
  · exact min_le_left _ _

/-- A visco-plastic fixture: viscous branch `1e21`, yield stress `1e7`, a
material-specific maximum-viscosity override. -/
def viscoPlasticMaterial : Material :=
  { index := 2,
    viscosity := some 1000000000000000000000,
    plasticity := some ⟨10000000⟩,
    maxViscosity := some 10000000000000000000000 }

/-- Model state hosting `viscoPlasticMaterial`. -/
def viscoPlasticState : ModelState :=
  { materials := [viscoPlasticMaterial],
    minViscosity := 1000000000000000000,
    maxViscosity := 10000000000000000000000000,
    strainRateInv := 1 / 100000000000000 }

/-- C1 witness: at the visco-plastic fixture the plastic branch (`5e20`) undercuts
the viscous branch (`1e21`); the minimum is within the limits, so the clamp
returns it unchanged. -/
theorem effective_viscosity_min_then_clamp_witness :
    ∃ v pl e, viscosityMapEntry viscoPlasticState viscoPlasticMaterial = some v
      ∧ plasticityMapEntry viscoPlasticState viscoPlasticMaterial = some pl
      ∧ materialRheology viscoPlasticState viscoPlasticMaterial = some e
      ∧ e.preClamp = min pl v ∧ e.preClamp ≤ v ∧ e.preClamp ≤ pl
      ∧ e.eff = ViscosityLimiter.apply
          ⟨effMinViscosity viscoPlasticState viscoPlasticMaterial,
            effMaxViscosity viscoPlasticState viscoPlasticMaterial⟩ e.preClamp
      ∧ effMinViscosity viscoPlasticState viscoPlasticMaterial ≤ e.eff
      ∧ e.eff ≤ effMaxViscosity viscoPlasticState viscoPlasticMaterial :=
  effective_viscosity_min_then_clamp viscoPlasticState viscoPlasticMaterial
    rfl rfl (by with_unfolding_all rfl)

/-! Claim C4: elasticity requires viscosity. -/

/-- C4: composing the viscosity function raises the configuration error
("Viscosity undefined for ...", a `ValueError` in the source, the spec's
`ConfigurationError` taxonomy entry) iff some material declares elasticity
without declaring viscosity; when every elastic material declares viscosity the
composition never raises this error. -/
theorem viscosityFn_configuration_error (st : ModelState) (idx : ℕ) :
    (∃ m ∈ st.materials, m.elasticity.isSome ∧ m.viscosity = none) ↔
      ∃ msg, viscosityFn st idx = .error (.valueError msg) := by
  constructor
  · intro ⟨m, hm, he, hv⟩
    have : (firstElasticityOffender st.materials).isSome := by
      unfold firstElasticityOffender
      rw [List.find?_isSome]
      exact ⟨m, hm, by rw [he, hv]; rfl⟩
    obtain ⟨mOff, hOff⟩ := Option.isSome_iff_exists.mp this
    refine ⟨"Viscosity undefined for " ++ mOff.name, ?_⟩
    unfold viscosityFn
    rw [hOff]
  · intro ⟨msg, hmsg⟩
    by_contra hno
    push_neg at hno
    have hfind : firstElasticityOffender st.materials = none := by
      unfold firstElasticityOffender
      rw [List.find?_eq_none]
      intro m hm hpm
      rw [Bool.and_eq_true, Option.isSome_iff_exists, Option.isNone_iff_eq_none]
        at hpm
      obtain ⟨⟨e, he⟩, hv⟩ := hpm
      exact absurd hv (hno m hm (by rw [he]; rfl))
    unfold viscosityFn at hmsg
    rw [hfind] at hmsg
    rcases hmelt : firstMeltOffender st.materials with _ | mOff <;>
      rw [hmelt] at hmsg <;> simp at hmsg

/-! Claim C5: plastic strain stays non-negative; heal-then-accumulate restores. -/

/-- C5: after the plastic-strain part of `_update`, the strain is non-negative
(healing is floored at zero before the non-negative accumulation increment is
added); healing followed by an accumulation of equal magnitude returns the strain
to its pre-healing value, except where the floor at zero intervened (there the
result is the accumulation increment alone). -/
theorem update_plasticStrain_nonneg_and_restore (st : ModelState) (m : Material)
    (dt p yld : ℚ) (hp : 0 ≤ p) (hdt : 0 ≤ dt) (hyld : 0 ≤ yld) :
    0 ≤ updatePlasticStrain st m dt p yld
    ∧ (∀ y, dt * y = dt * nd m.healingRate → healingActive st = true →
        dt * nd m.healingRate ≤ p → updatePlasticStrain st m dt p y = p)
    ∧ (∀ y, dt * y = dt * nd m.healingRate → healingActive st = true →
        p < dt * nd m.healingRate →
        updatePlasticStrain st m dt p y = dt * nd m.healingRate)
    ∧ (∀ e, 0 ≤ st.strainRateInv → 0 ≤ isYielding st e) := by
  refine ⟨?_, ?_, ?_, ?_⟩
  · unfold updatePlasticStrain
    have hinc : 0 ≤ dt * yld := mul_nonneg hdt hyld
    rcases h : healingActive st with _ | _
    · simp only [Bool.false_eq_true, if_false]
      linarith
    · simp only [if_true]
      split_ifs with hfloor
      · linarith
      · linarith
  · intro y hy hact hle
    unfold updatePlasticStrain
    rw [hact]
    simp only [if_true]
    split_ifs with hfloor
    · linarith
    · linarith [hy]
  · intro y hy hact hlt
    unfold updatePlasticStrain
    rw [hact]
    simp only [if_true]
    split_ifs with hfloor
    · linarith [hy]
    · linarith
  · intro e hsr
    have hflag : 0 ≤ yieldFlag e := by
      unfold yieldFlag
      split_ifs <;> norm_num
    unfold isYielding
    split_ifs
    · exact mul_nonneg hflag hsr
    · exact le_refl 0

/-- A healing fixture: one material with healing rate `2`. -/
def healingMaterial : Material :=
  { index := 0, viscosity := some 1, healingRate := 2 }

/-- Model state hosting `healingMaterial`. -/
def healingState : ModelState :=
  { materials := [healingMaterial] }

/-- C5 witness: with `dt = 1`, strain `5`, healing rate `2`, the update with a
matching accumulation restores the strain to `5` and stays non-negative. -/
theorem update_plasticStrain_nonneg_and_restore_witness :
    0 ≤ updatePlasticStrain healingState healingMaterial 1 5 2
    ∧ updatePlasticStrain healingState healingMaterial 1 5 2 = 5 := by
  have h := update_plasticStrain_nonneg_and_restore healingState healingMaterial
    1 5 2 (by norm_num) (by norm_num) (by norm_num)
  exact ⟨h.1, h.2.1 2 rfl (by with_unfolding_all rfl) (by with_unfolding_all
    (norm_num [healingMaterial, nd]))⟩

/-! Claim C7: the stress-history blend. -/

/-- C7: when some material declares elasticity, `_update_stress_history` blends
the previous stress toward the freshly composed total stress:
`previousStress * (1 - phi) + phi * currentStress` with
`phi = dt / minElasticObservationTime`, where the divisor is the minimum
observation time over all elastic materials — a blend, not a hard overwrite. -/
theorem stress_history_blend (mats : List Material) (dt prev cur : ℚ)
    (h : ∃ m ∈ mats, m.elasticity.isSome) :
    ∃ dte, minElasticObsTime mats = some dte
      ∧ (∀ m ∈ mats, ∀ e, m.elasticity = some e → dte ≤ nd e.observation_time)
      ∧ (∃ m ∈ mats, ∃ e, m.elasticity = some e ∧ dte = nd e.observation_time)
      ∧ updateStressHistory mats dt prev cur =
          some (prev * (1 - dt / dte) + dt / dte * cur) := by
  obtain ⟨m0, hm0, he0⟩ := h
  obtain ⟨e0, he0'⟩ := Option.isSome_iff_exists.mp he0
  have hmem0 : nd e0.observation_time ∈ elasticObsTimes mats := by
    unfold elasticObsTimes
    rw [List.mem_filterMap]
    exact ⟨m0, hm0, by rw [he0']; rfl⟩
  have hobs : ∀ t, t ∈ elasticObsTimes mats ↔
      ∃ m ∈ mats, ∃ e, m.elasticity = some e ∧ nd e.observation_time = t := by
    intro t
    unfold elasticObsTimes
    rw [List.mem_filterMap]
    constructor
    · intro ⟨m, hm, hmap⟩
      rw [Option.map_eq_some'] at hmap
      obtain ⟨e, he, ht⟩ := hmap
      exact ⟨m, hm, e, he, ht⟩
    · intro ⟨m, hm, e, he, ht⟩
      exact ⟨m, hm, by rw [he, Option.map_some']; exact congrArg _ ht⟩
  rcases hlist : elasticObsTimes mats with _ | ⟨x, xs⟩
  · rw [hlist] at hmem0
    cases hmem0
  · refine ⟨xs.foldl min x, ?_, ?_, ?_, ?_⟩
    · unfold minElasticObsTime
      rw [hlist]
    · intro m hm e he
      have : nd e.observation_time ∈ elasticObsTimes mats :=
        (hobs _).mpr ⟨m, hm, e, he, rfl⟩
      rw [hlist] at this
      rcases List.mem_cons.mp this with h' | h'
      · rw [h']
        exact foldl_min_le_init xs x
      · exact foldl_min_le_mem xs x _ h'
    · have hmem : xs.foldl min x ∈ elasticObsTimes mats := by
        rw [hlist]
        rcases foldl_min_attained xs x with h' | h'
        · rw [h']
          exact List.mem_cons_self x xs
        · exact List.mem_cons_of_mem x h'
      obtain ⟨m, hm, e, he, ht⟩ := (hobs _).mp hmem
      exact ⟨m, hm, e, he, ht.symm⟩
    · unfold updateStressHistory minElasticObsTime
      rw [hlist]
      rfl

/-- Two elastic materials with observation times `3` and `2`. -/
def elasticMaterialA : Material :=
  { index := 0, viscosity := some 1,
    elasticity := some ⟨10, 3, fun v => v⟩ }

/-- Second elastic fixture material. -/
def elasticMaterialB : Material :=
  { index := 1, viscosity := some 1,
    elasticity := some ⟨10, 2, fun v => v⟩ }

/-- C7 witness: with observation times `{3, 2}` the divisor is `2`; with
`dt = 1`, `prev = 8`, `cur = 4` the blend gives `8 * (1/2) + (1/2) * 4 = 6`. -/
theorem stress_history_blend_witness :
    (∃ dte, minElasticObsTime [elasticMaterialA, elasticMaterialB] = some dte
      ∧ (∀ m ∈ [elasticMaterialA, elasticMaterialB], ∀ e,
          m.elasticity = some e → dte ≤ nd e.observation_time)
      ∧ (∃ m ∈ [elasticMaterialA, elasticMaterialB], ∃ e,
          m.elasticity = some e ∧ dte = nd e.observation_time)
      ∧ updateStressHistory [elasticMaterialA, elasticMaterialB] 1 8 4 =
          some (8 * (1 - 1 / dte) + 1 / dte * 4))
    ∧ updateStressHistory [elasticMaterialA, elasticMaterialB] 1 8 4 = some 6 :=
  ⟨stress_history_blend [elasticMaterialA, elasticMaterialB] 1 8 4
      ⟨elasticMaterialA, by simp, rfl⟩,
    by with_unfolding_all rfl⟩

/-! Claim C6: the three-segment melt-weakening multiplier. -/

/-- Increasing case of the melt-multiplier monotonicity. -/
theorem meltMultiplier_mono_of_one_le (st : ModelState) (m : Material)
    (a b : ℚ) (hx : m.viscosityChangeX1 < m.viscosityChangeX2) (hab : a ≤ b)
    (hc : 1 ≤ m.viscosityChange) :
    meltMultiplier { st with meltFraction := a } m ≤
      meltMultiplier { st with meltFraction := b } m := by
  have hne : m.viscosityChangeX2 - m.viscosityChangeX1 ≠ 0 :=
    sub_ne_zero.mpr hx.ne'
  have hs : 0 ≤ (m.viscosityChange - 1)
      / (m.viscosityChangeX2 - m.viscosityChangeX1) :=
    div_nonneg (by linarith) (by linarith)
  have hsc : (m.viscosityChange - 1)
      / (m.viscosityChangeX2 - m.viscosityChangeX1)
      * (m.viscosityChangeX2 - m.viscosityChangeX1) = m.viscosityChange - 1 :=
    div_mul_cancel₀ _ hne
  unfold meltMultiplier
  dsimp only
  split_ifs with h1 h2 h3 h4 h5 h6 h7 <;>
    nlinarith [mul_le_mul_of_nonneg_left
        (sub_le_sub_right hab m.viscosityChangeX1) hs,
      mul_nonneg hs (sub_nonneg.mpr (le_of_lt hx))]

/-- Decreasing case of the melt-multiplier monotonicity. -/
theorem meltMultiplier_anti_of_le_one (st : ModelState) (m : Material)
    (a b : ℚ) (hx : m.viscosityChangeX1 < m.viscosityChangeX2) (hab : a ≤ b)
    (hc : m.viscosityChange ≤ 1) :
    meltMultiplier { st with meltFraction := b } m ≤
      meltMultiplier { st with meltFraction := a } m := by
  have hne : m.viscosityChangeX2 - m.viscosityChangeX1 ≠ 0 :=
    sub_ne_zero.mpr hx.ne'
  have hs : (m.viscosityChange - 1)
      / (m.viscosityChangeX2 - m.viscosityChangeX1) ≤ 0 :=
    div_nonpos_of_nonpos_of_nonneg (by linarith) (by linarith)
  have hsc : (m.viscosityChange - 1)
      / (m.viscosityChangeX2 - m.viscosityChangeX1)
      * (m.viscosityChangeX2 - m.viscosityChangeX1) = m.viscosityChange - 1 :=
    div_mul_cancel₀ _ hne
  unfold meltMultiplier
  dsimp only
  split_ifs with h1 h2 h3 h4 h5 h6 h7 <;>
    nlinarith [mul_le_mul_of_nonpos_left
        (sub_le_sub_right hab m.viscosityChangeX1) hs,
      mul_nonpos_of_nonpos_of_nonneg hs (sub_nonneg.mpr (le_of_lt hx))]

/-- C6: with breakpoints `X1 < X2` the melt-weakening multiplier is `1` up to
`X1`, the full factor `viscosityChange` from `X2` on, the linear interpolation in
between (so it is continuous: each breakpoint value agrees with the adjacent
constant branch), monotone in the melt fraction (increasing when
`viscosityChange ≥ 1`, decreasing when `≤ 1`), and applied multiplicatively to
the viscosity already composed by the viscous and elastic steps. -/
theorem melt_weakening_multiplier (st : ModelState) (m : Material)
    (hx : m.viscosityChangeX1 < m.viscosityChangeX2) :
    (st.meltFraction ≤ m.viscosityChangeX1 → meltMultiplier st m = 1)
    ∧ (m.viscosityChangeX2 ≤ st.meltFraction →
        meltMultiplier st m = m.viscosityChange)
    ∧ (m.viscosityChangeX1 ≤ st.meltFraction →
        st.meltFraction ≤ m.viscosityChangeX2 →
        meltMultiplier st m = 1 + (m.viscosityChange - 1)
          / (m.viscosityChangeX2 - m.viscosityChangeX1)
          * (st.meltFraction - m.viscosityChangeX1))
    ∧ (∀ a b, a ≤ b → 1 ≤ m.viscosityChange →
        meltMultiplier { st with meltFraction := a } m ≤
          meltMultiplier { st with meltFraction := b } m)
    ∧ (∀ a b, a ≤ b → m.viscosityChange ≤ 1 →
        meltMultiplier { st with meltFraction := b } m ≤
          meltMultiplier { st with meltFraction := a } m)
    ∧ (m.melt = true → viscosityMapEntry st m =
        (elasticEntry m).map (fun v => v * meltMultiplier st m)) := by
  have hne : m.viscosityChangeX2 - m.viscosityChangeX1 ≠ 0 :=
    sub_ne_zero.mpr hx.ne'
  have hsc : (m.viscosityChange - 1)
      / (m.viscosityChangeX2 - m.viscosityChangeX1)
      * (m.viscosityChangeX2 - m.viscosityChangeX1) = m.viscosityChange - 1 :=
    div_mul_cancel₀ _ hne
  refine ⟨?_, ?_, ?_,
    fun a b => meltMultiplier_mono_of_one_le st m a b hx,
    fun a b => meltMultiplier_anti_of_le_one st m a b hx, ?_⟩
  · intro h
    unfold meltMultiplier
    split_ifs with h1 h2
    · rfl
    · linarith
    · have : st.meltFraction = m.viscosityChangeX1 := le_antisymm h (not_lt.mp h1)
      rw [this]
      ring
  · intro h
    unfold meltMultiplier
    split_ifs with h1 h2
    · linarith
    · rfl
    · have : st.meltFraction = m.viscosityChangeX2 :=
        le_antisymm (not_lt.mp h2) h
      rw [this, hsc]
      ring
  · intro hlo hhi
    unfold meltMultiplier
    split_ifs with h1 h2
    · linarith
    · linarith
    · rfl
  · intro hmelt
    unfold viscosityMapEntry
    rw [hmelt]
    rfl

/-- A melt-weakening fixture: breakpoints `X1 = 1/4 < X2 = 1/2`, weakening
factor `1/10`, viscous branch `100`, melt fraction `3/8` (mid-segment). -/
def meltMaterial : Material :=
  { index := 0, viscosity := some 100, melt := true,
    viscosityChange := 1 / 10,
    viscosityChangeX1 := 1 / 4,
    viscosityChangeX2 := 1 / 2 }

/-- Model state hosting `meltMaterial` with melt fraction `3/8`. -/
def meltState : ModelState :=
  { materials := [meltMaterial], meltFraction := 3 / 8 }

/-- C6 witness: the melt fixture instantiates every conjunct; in particular the
mid-segment value is the linear interpolation and the multiplier is applied
multiplicatively to the viscous entry. -/
theorem melt_weakening_multiplier_witness :
    ((3 : ℚ) / 8 ≤ 1 / 4 → meltMultiplier meltState meltMaterial = 1)
    ∧ ((1 : ℚ) / 2 ≤ 3 / 8 → meltMultiplier meltState meltMaterial = 1 / 10)
    ∧ ((1 : ℚ) / 4 ≤ 3 / 8 → (3 : ℚ) / 8 ≤ 1 / 2 →
        meltMultiplier meltState meltMaterial =
          1 + (1 / 10 - 1) / (1 / 2 - 1 / 4) * (3 / 8 - 1 / 4))
    ∧ meltMultiplier meltState meltMaterial = 11 / 20
    ∧ viscosityMapEntry meltState meltMaterial =
        (elasticEntry meltMaterial).map
          (fun v => v * meltMultiplier meltState meltMaterial)
    ∧ viscosityMapEntry meltState meltMaterial = some 55 := by
  have h := melt_weakening_multiplier meltState meltMaterial
    (by norm_num [meltMaterial])
  refine ⟨fun hle => h.1 hle, fun hle => h.2.1 hle,
    fun hlo hhi => ?_, by with_unfolding_all rfl,
    h.2.2.2.2.2 rfl, by with_unfolding_all rfl⟩
  have := h.2.2.1 hlo hhi
  simpa [meltMaterial, meltState] using this

/-! Claim C8: the yielding diagnostic. -/

/-- C8: a particle is flagged yielding (flag `1`) iff its effective viscosity is
strictly below the background viscosity or its material is plastic-only
(plasticity declared, no viscous branch); before the first solve
(`_solution_exist` false) the `_isYielding` diagnostic is the constant zero, so
the plastic-strain accumulation increment `dt * _isYielding` vanishes. -/
theorem yielding_diagnostic (st : ModelState) (m : Material) (e : RheologyEntry)
    (he : materialRheology st m = some e) :
    (yieldFlag e = 1 ↔
      e.eff < e.bg ∨ (m.plasticity.isSome ∧ m.viscosity = none))
    ∧ (st.solutionExists = false →
        isYielding st e = 0 ∧ ∀ dt : ℚ, dt * isYielding st e = 0) := by
  constructor
  · unfold materialRheology at he
    rcases hv : viscosityMapEntry st m with _ | v <;>
      rcases hp : plasticityMapEntry st m with _ | p <;> rw [hv, hp] at he
    · exact Option.noConfusion he
    · -- plastic-only material
      have hvn : m.viscosity = none := (viscosityMapEntry_eq_none_iff st m).mp hv
      have hpn : m.plasticity.isSome := by
        rw [← Option.ne_none_iff_isSome]
        intro hcon
        rw [← plasticityMapEntry_eq_none_iff st m] at hcon
        rw [hcon] at hp
        exact Option.noConfusion hp
      have he' := Option.some.inj he
      subst he'
      constructor
      · intro _
        exact Or.inr ⟨hpn, hvn⟩
      · intro _
        unfold yieldFlag
        split_ifs with h1 h2
        · rfl
        · rfl
        · norm_num at h2
    · -- viscous-only material
      have hpn : m.plasticity = none :=
        (plasticityMapEntry_eq_none_iff st m).mp hp
      have hvn : m.viscosity ≠ none := by
        intro hcon
        rw [← viscosityMapEntry_eq_none_iff st m] at hcon
        rw [hcon] at hv
        exact Option.noConfusion hv
      have he' := Option.some.inj he
      subst he'
      constructor
      · intro hflag
        unfold yieldFlag at hflag
        split_ifs at hflag with h1 h2
        · exact Or.inl h1
        · norm_num at h2
        · norm_num at hflag
      · intro hor
        rcases hor with h1 | ⟨hps, _⟩
        · unfold yieldFlag
          rw [if_pos h1]
        · rw [hpn] at hps
          exact Bool.noConfusion hps
    · -- visco-plastic material
      have hvn : m.viscosity ≠ none := by
        intro hcon
        rw [← viscosityMapEntry_eq_none_iff st m] at hcon
        rw [hcon] at hv
        exact Option.noConfusion hv
      have he' := Option.some.inj he
      subst he'
      constructor
      · intro hflag
        unfold yieldFlag at hflag
        split_ifs at hflag with h1 h2
        · exact Or.inl h1
        · norm_num at h2
        · norm_num at hflag
      · intro hor
        rcases hor with h1 | ⟨_, hvnone⟩
        · unfold yieldFlag
          rw [if_pos h1]
        · exact absurd hvnone hvn
  · intro hsol
    unfold isYielding
    rw [hsol]
    exact ⟨rfl, fun dt => mul_zero dt⟩

/-- `scenarioState` before the very first solve (`_solution_exist` false). -/
def preSolveState : ModelState :=
  { scenarioState with solutionExists := false }

/-- The rheology entry of the plastic-only scenario material:
`eff = preClamp = bg = 5e20`, `isPlastic = 1`. -/
def plasticOnlyEntry : RheologyEntry :=
  ⟨500000000000000000000, 500000000000000000000, 500000000000000000000, 1⟩

/-- C8 witness: the plastic-only scenario particle is flagged yielding, and
before the first solve its `_isYielding` value and accumulation increment are
zero. -/
theorem yielding_diagnostic_witness :
    (yieldFlag plasticOnlyEntry = 1 ↔
      plasticOnlyEntry.eff < plasticOnlyEntry.bg ∨
        (scenarioMaterial.plasticity.isSome ∧ scenarioMaterial.viscosity = none))
    ∧ isYielding preSolveState plasticOnlyEntry = 0
    ∧ (3 : ℚ) * isYielding preSolveState plasticOnlyEntry = 0 := by
  have h := yielding_diagnostic preSolveState scenarioMaterial plasticOnlyEntry
    (by with_unfolding_all rfl)
  exact ⟨h.1, (h.2 rfl).1, (h.2 rfl).2 3⟩

/-! Claim C9: checkpoint cadence in the stepping loop. -/

/-- C9: on a checkpoint trigger, one loop iteration increments `checkpointID` and
persists the field and tracer snapshots with the new id; in any iteration a swarm
snapshot is written only when `checkpointID % restart_checkpoint == 0`, and its
id is the iteration's final `checkpointID` — the swarm cadence is decoupled from
the field cadence. -/
theorem checkpoint_cadence (interval : Option CkptTarget) (rc : ℕ) (dt : ℚ)
    (s : LoopState) :
    (ckptTrigger (s.time + dt) (s.stepDone + 1) s.nextCkpt = true →
      (iterCheckpoint interval rc dt s).1.checkpointID = s.checkpointID + 1
      ∧ CkptEvent.fields (s.checkpointID + 1) ∈
          (iterCheckpoint interval rc dt s).2
      ∧ CkptEvent.tracers (s.checkpointID + 1) ∈
          (iterCheckpoint interval rc dt s).2)
    ∧ ∀ i, CkptEvent.swarms i ∈ (iterCheckpoint interval rc dt s).2 →
        i % rc = 0 ∧ i = (iterCheckpoint interval rc dt s).1.checkpointID := by
  by_cases htr : ckptTrigger (s.time + dt) (s.stepDone + 1) s.nextCkpt = true
  · constructor
    · intro _
      refine ⟨?_, ?_, ?_⟩ <;> simp [iterCheckpoint, htr]
    · intro i hi
      simp only [iterCheckpoint] at hi
      rw [if_pos htr] at hi
      by_cases hstr : (s.checkpointID + 1) % rc = 0
      · simp [hstr] at hi
        subst hi
        exact ⟨hstr, by simp [iterCheckpoint, htr]⟩
      · simp [hstr] at hi
  · constructor
    · intro h
      exact absurd h htr
    · intro i hi
      simp only [iterCheckpoint] at hi
      rw [if_neg htr] at hi
      by_cases hstr : s.checkpointID % rc = 0
      · simp [hstr] at hi
        subst hi
        refine ⟨hstr, ?_⟩
        simp only [iterCheckpoint]
        rw [if_neg htr]
      · simp [hstr] at hi

/-- A loop state one step before a time-scheduled checkpoint at `t = 10`. -/
def ckptLoopState : LoopState :=
  { time := 5, stepDone := 0, checkpointID := 0,
    nextCkpt := some (Sum.inl 10) }

/-- C9 witness: with interval `10`, `restart_checkpoint = 1` and `dt = 5` the
iteration lands on the scheduled time, increments the id to `1` and persists
fields, tracers and (stride `1`) swarms with id `1`. -/
theorem checkpoint_cadence_witness :
    (iterCheckpoint (some (Sum.inl 10)) 1 5 ckptLoopState).1.checkpointID = 1
    ∧ CkptEvent.fields 1 ∈ (iterCheckpoint (some (Sum.inl 10)) 1 5 ckptLoopState).2
    ∧ CkptEvent.tracers 1 ∈
        (iterCheckpoint (some (Sum.inl 10)) 1 5 ckptLoopState).2
    ∧ ∀ i, CkptEvent.swarms i ∈
        (iterCheckpoint (some (Sum.inl 10)) 1 5 ckptLoopState).2 →
        i % 1 = 0 ∧ i = 1 := by
  have h := checkpoint_cadence (some (Sum.inl 10)) 1 5 ckptLoopState
  have htr : ckptTrigger (ckptLoopState.time + 5) (ckptLoopState.stepDone + 1)
      ckptLoopState.nextCkpt = true := by
    with_unfolding_all rfl
  obtain ⟨hid, hf, ht⟩ := h.1 htr
  refine ⟨hid, hf, ht, fun i hi => ?_⟩
  obtain ⟨h1, h2⟩ := h.2 i hi
  exact ⟨h1, h2.trans hid⟩

/-! Claim C10: the LinearDensity contract. -/

/-- C10: `LinearDensity.effective_density` raises `RuntimeError` when the
temperature field is unset, raises `RuntimeError` when the pressure field is
unset, and with both fields set returns
`rho0 * (1 + beta * (P - Pref) - alpha * (T - Tref))` without raising. -/
theorem linearDensity_effective_density (d : LinearDensity) :
    (d.temperatureField = none →
      d.effective_density = .error (.runtimeError "No temperatureField found!"))
    ∧ (d.pressureField = none →
        ∃ msg, d.effective_density = .error (.runtimeError msg))
    ∧ (∀ T P, d.temperatureField = some T → d.pressureField = some P →
        d.effective_density = .ok (nd d.reference_density *
          (1 + d.beta * (P - d.Pref) - d.alpha * (T - d.Tref)))
        ∧ ∀ err, d.effective_density ≠ .error err) := by
  refine ⟨?_, ?_, ?_⟩
  · intro hT
    unfold LinearDensity.effective_density
    rw [hT]
  · intro hP
    unfold LinearDensity.effective_density
    rcases hT : d.temperatureField with _ | T
    · exact ⟨"No temperatureField found!", rfl⟩
    · rw [hP]
      exact ⟨"No pressureField found!", rfl⟩
  · intro T P hT hP
    unfold LinearDensity.effective_density
    rw [hT, hP]
    exact ⟨rfl, fun err hcon => Except.noConfusion hcon⟩

/-- A fully configured density fixture: `rho0 = 3300`, `alpha = 3e-5`,
`Tref = 273`, `beta = 1e-2`, `Pref = 1`, evaluated at `T = 1273`, `P = 2`. -/
def sampleDensity : LinearDensity :=
  { reference_density := 3300,
    thermalExpansivity := 3 / 100000,
    reference_temperature := 273,
    beta' := 1 / 100,
    reference_pressure := 1,
    temperatureField := some 1273,
    pressureField := some 2 }

/-- C10 witness: with both fields set the fixture returns the linear law's value
(`3300 * (1 + 0.01 * 1 - 3e-5 * 1000) = 3234`) and raises nothing; with the
temperature field removed it raises the `RuntimeError`. -/
theorem linearDensity_effective_density_witness :
    sampleDensity.effective_density = .ok (nd sampleDensity.reference_density *
      (1 + sampleDensity.beta * (2 - sampleDensity.Pref)
        - sampleDensity.alpha * (1273 - sampleDensity.Tref)))
    ∧ sampleDensity.effective_density = .ok 3234
    ∧ { sampleDensity with temperatureField := none }.effective_density =
        .error (.runtimeError "No temperatureField found!") := by
  have h := linearDensity_effective_density sampleDensity
  have h2 := linearDensity_effective_density
    { sampleDensity with temperatureField := none }
  exact ⟨(h.2.2 1273 2 rfl rfl).1, by with_unfolding_all rfl, h2.1 rfl⟩

end UWG
